import Mathlib

/-!
Verification of the `odx` telemetry wrapper (`src/main.rs`).

The wrapper runs a child command under a telemetry transaction: it resolves a
sink address (DSN) from the environment, derives or generates a 128-bit trace
identifier, spawns the child with the trace id exported in its environment,
classifies the child's exit status, and reports the outcome.  The development
below is a shallow embedding of that program: environments are functions from
variable names to optional values, the sentry transaction is modelled as the
trace of events the wrapper emits against it, and fallible operations (panics)
return `Option`.
-/

/-- An environment: a map from variable names to values, as read by
`std::env::var`. -/
abbrev Env : Type := String → Option String

/-- A child process exit status (`std::process::ExitStatus`): either a normal
exit with a numeric code, or termination by a signal (no numeric code). -/
inductive ExitStatus where
  | exited (code : Int)
  | signaled (sig : Nat)
deriving DecidableEq, Repr

/-- `ExitStatus::success()`: true exactly when the child exited with code 0. -/
def ExitStatus.success : ExitStatus → Bool
  | .exited 0 => true
  | _ => false

/-- `ExitStatus::code()`: the numeric exit code when one exists, `none` when
the child was terminated by a signal. -/
def ExitStatus.code : ExitStatus → Option Int
  | .exited c => some c
  | .signaled _ => none

/-- Modelled from the spec: the literal exit-status rendering (`Display` of
`std::process::ExitStatus`, not part of this repository) embedded in the
telemetry message text. -/
def ExitStatus.render : ExitStatus → String
  | .exited c => "exit status: " ++ toString c
  | .signaled s => "signal: " ++ toString s

/-- `sentry::protocol::SpanStatus`, restricted to the variants the wrapper
uses. -/
inductive SpanStatus where
  | ok
  | unknownError
deriving DecidableEq, Repr

/-- `sentry::Level`, restricted to the variants the wrapper uses. -/
inductive Level where
  | info
  | warning
  | error
deriving DecidableEq, Repr

/-- One observable call against the telemetry transaction: setting its status,
capturing a message, or finalizing it.  The sentry transaction itself is
external; the wrapper's behaviour towards it is this event trace. -/
inductive Event where
  | setStatus (s : SpanStatus)
  | captureMessage (msg : String) (level : Level)
  | finishTransaction
deriving DecidableEq, Repr

/-- `dsn()`: reads `ODX_SANDBOX_DSN` in debug builds and `ODX_DSN` in release
builds. -/
def dsn (env : Env) (debug : Bool) : Option String :=
  env (if debug then "ODX_SANDBOX_DSN" else "ODX_DSN")

/-- `TRACE_ID_KEY`: the environment variable carrying the trace id. -/
def TRACE_ID_KEY : String := "ODX_TRACE_ID"

/-- Modelled from the spec: the value of one hexadecimal digit character, used
by the trace-identifier parser of the telemetry SDK (not in `src/`). -/
def hexVal (c : Char) : Option Nat :=
  if 48 ≤ c.toNat ∧ c.toNat ≤ 57 then some (c.toNat - 48)
  else if 97 ≤ c.toNat ∧ c.toNat ≤ 102 then some (c.toNat - 87)
  else if 65 ≤ c.toNat ∧ c.toNat ≤ 70 then some (c.toNat - 55)
  else none

/-- One step of the hexadecimal parse: accumulate a digit, failing on a
non-hexadecimal character. -/
def hexStep (acc : Option Nat) (c : Char) : Option Nat :=
  match acc with
  | none => none
  | some a =>
    match hexVal c with
    | none => none
    | some v => some (a * 16 + v)

/-- Parse a list of characters as a hexadecimal number, failing if any
character is not a hexadecimal digit. -/
def parseHexChars (l : List Char) : Option Nat :=
  l.foldl hexStep (some 0)

/-- Modelled from the spec: `TraceId::from_str` of the telemetry SDK (not in
`src/`) — a valid 128-bit trace identifier is exactly 32 hexadecimal digits. -/
def parseTraceId (s : String) : Option Nat :=
  if s.data.length = 32 then parseHexChars s.data else none

/-- The most significant `k` hexadecimal digits of `n`, most significant
first. -/
def toHexChars : Nat → Nat → List Char
  | _, 0 => []
  | n, k + 1 => toHexChars (n / 16) k ++ [Nat.digitChar (n % 16)]

/-- Modelled from the spec: `TraceId::to_string` of the telemetry SDK (not in
`src/`) — a 128-bit trace identifier rendered as 32 lowercase hexadecimal
digits. -/
def serializeTraceId (x : Nat) : String :=
  String.mk (toHexChars x 32)

/-- `trace_id()`: the inbound trace id, when the `ODX_TRACE_ID` variable is
present and parses as a valid 128-bit trace identifier.  (Named `trace_id` in
the source; renamed here to avoid capture by the `Guard.trace_id` field.) -/
def trace_id_env (env : Env) : Option Nat :=
  (env TRACE_ID_KEY).bind parseTraceId

/-- `basename`: `path.rsplit('/').next()` — the longest suffix of `path`
containing no `'/'`. -/
def basename (path : String) : String :=
  String.mk ((path.data.reverse.takeWhile (fun c => c != '/')).reverse)

/-- The `Guard` session: transaction handle (present until taken), resolved
trace id, and command label. -/
structure Guard where
  transaction : Option Unit
  trace_id : Nat
  cmd : String
deriving DecidableEq, Repr

/-- `Guard::new`: fails (`Err`) when the sink-address variable is absent or
installing the interrupt handler fails; otherwise resolves the trace id
(inbound value if valid, else the freshly generated `fresh`) and builds the
command label from the program basename and space-joined arguments. -/
def Guard.new (env : Env) (debug : Bool) (ctrlcOk : Bool) (fresh : Nat)
    (program : String) (args : List String) : Option Guard :=
  match dsn env debug with
  | none => none
  | some _ =>
    if ctrlcOk then
      some { transaction := some ()
             trace_id := (trace_id_env env).getD fresh
             cmd := basename program ++ " " ++ String.intercalate " " args }
    else none

/-- `Guard::finish`: takes the transaction handle (panicking — `none` — if it
was already taken), classifies the exit status, emits the corresponding
message, and finalizes the transaction.  Returns the guard as it stands after
the call together with the events emitted. -/
def Guard.finish (g : Guard) (status : ExitStatus) :
    Option (Guard × List Event) :=
  match g.transaction with
  | none => none
  | some _ =>
    let evs :=
      if status.success then
        [Event.setStatus SpanStatus.ok,
         Event.captureMessage (g.cmd ++ " succeeded (" ++ status.render ++ ")")
           Level.info,
         Event.finishTransaction]
      else
        [Event.setStatus SpanStatus.unknownError,
         Event.captureMessage (g.cmd ++ " failed (" ++ status.render ++ ")")
           Level.warning,
         Event.finishTransaction]
    some ({ g with transaction := none }, evs)

/-- `impl Drop for Guard`: if the transaction handle is still present, mark it
`UnknownError`, capture the "did not exit" message at error level, and
finalize it; otherwise do nothing. -/
def Guard.drop (g : Guard) : List Event :=
  match g.transaction with
  | none => []
  | some _ =>
    [Event.setStatus SpanStatus.unknownError,
     Event.captureMessage (g.cmd ++ " did not exit") Level.error,
     Event.finishTransaction]

/-- The number of finalizing calls (`Transaction::finish`) in an event
trace. -/
def countFinish (evs : List Event) : Nat :=
  (evs.filter (fun e => e == Event.finishTransaction)).length

/-- The number of captured messages in an event trace. -/
def countMessages (evs : List Event) : Nat :=
  (evs.filter (fun e =>
    match e with
    | Event.captureMessage _ _ => true
    | _ => false)).length

/-- How `main` terminates: an explicit `exit(code)` call, or falling off the
end of `main` (which makes the process exit 0). -/
inductive MainExit where
  | explicitExit (code : Int)
  | normalReturn
deriving DecidableEq, Repr

/-- The process exit code produced by each way of leaving `main`. -/
def processExitCode : MainExit → Int
  | .explicitExit c => c
  | .normalReturn => 0

/-- The tail of `main`: `if let Some(code) = status.code() { exit(code) }` —
an explicit exit with the child's code when one exists, else a normal
return. -/
def exitOf (st : ExitStatus) : MainExit :=
  match st.code with
  | some c => MainExit.explicitExit c
  | none => MainExit.normalReturn

/-- The observable outcome of one run of `main`: whether a configuration
error was printed to standard error, the telemetry events emitted, whether the
child process was spawned, the child's environment, and how `main` exits. -/
structure MainResult where
  stderrLogged : Bool
  telemetryEvents : List Event
  ranChild : Bool
  childEnv : Env
  mainExit : MainExit

/-- `main`: takes the first positional argument as the program (panicking —
`none` — when absent), tries to create the session; on success spawns the
child with `ODX_TRACE_ID` set to the resolved trace id and finishes the guard
with the child's status; on failure logs to standard error and spawns the
child with the unmodified environment.  `spawnOk = false` models a spawn
failure, on which both paths panic (`unwrap`).  Finally exits with the child's
code when one exists, else returns normally. -/
def runMain (env : Env) (debug : Bool) (ctrlcOk : Bool) (fresh : Nat)
    (argv : List String) (spawnOk : Bool) (childStatus : ExitStatus) :
    Option MainResult :=
  match argv with
  | [] => none
  | program :: args =>
    match Guard.new env debug ctrlcOk fresh program args with
    | some guard =>
      if spawnOk then
        match guard.finish childStatus with
        | none => none
        | some (g', evs) =>
          some { stderrLogged := false
                 telemetryEvents := evs ++ g'.drop
                 ranChild := true
                 childEnv := fun k =>
                   if k = TRACE_ID_KEY then
                     some (serializeTraceId guard.trace_id)
                   else env k
                 mainExit := exitOf childStatus }
      else none
    | none =>
      if spawnOk then
        some { stderrLogged := true
               telemetryEvents := []
               ranChild := true
               childEnv := env
               mainExit := exitOf childStatus }
      else none

/-! ## Helper lemmas: hexadecimal round trip -/

lemma hexVal_lt (c : Char) (v : Nat) (h : hexVal c = some v) : v < 16 := by
  unfold hexVal at h
  split_ifs at h <;> simp_all <;> omega

lemma hexVal_digitChar (d : Nat) (h : d < 16) :
    hexVal (Nat.digitChar d) = some d := by
  interval_cases d <;> rfl

lemma hexStep_digitChar (a d : Nat) (h : d < 16) :
    hexStep (some a) (Nat.digitChar d) = some (a * 16 + d) := by
  simp [hexStep, hexVal_digitChar d h]

lemma toHexChars_length (k : Nat) : ∀ n, (toHexChars n k).length = k := by
  induction k with
  | zero => intro n; rfl
  | succ k ih => intro n; simp [toHexChars, ih]

lemma foldl_hexStep_toHexChars (k : Nat) : ∀ n a, n < 16 ^ k →
    (toHexChars n k).foldl hexStep (some a) = some (a * 16 ^ k + n) := by
  induction k with
  | zero =>
    intro n a h
    have hn : n = 0 := by omega
    subst hn
    simp [toHexChars]
  | succ k ih =>
    intro n a h
    have hd : n / 16 < 16 ^ k := by
      rw [Nat.div_lt_iff_lt_mul (by norm_num)]
      calc n < 16 ^ (k + 1) := h
        _ = 16 ^ k * 16 := by rw [pow_succ]
    have hm : n % 16 < 16 := Nat.mod_lt _ (by norm_num)
    simp only [toHexChars, List.foldl_append, ih (n / 16) a hd,
      List.foldl_cons, List.foldl_nil]
    rw [hexStep_digitChar _ _ hm]
    congr 1
    calc (a * 16 ^ k + n / 16) * 16 + n % 16
        = a * (16 ^ k * 16) + (16 * (n / 16) + n % 16) := by ring
      _ = a * (16 ^ k * 16) + n := by rw [Nat.div_add_mod]
      _ = a * 16 ^ (k + 1) + n := by rw [pow_succ]

lemma foldl_hexStep_none (l : List Char) : l.foldl hexStep none = none := by
  induction l with
  | nil => rfl
  | cons c tl ih => simp [hexStep, ih]

lemma foldl_hexStep_bound (l : List Char) : ∀ a n,
    l.foldl hexStep (some a) = some n → n < (a + 1) * 16 ^ l.length := by
  induction l with
  | nil =>
    intro a n h
    simp only [List.foldl_nil, Option.some.injEq] at h
    subst h
    simp
  | cons c tl ih =>
    intro a n h
    simp only [List.foldl_cons] at h
    cases hv : hexVal c with
    | none =>
      rw [show hexStep (some a) c = none by simp [hexStep, hv],
        foldl_hexStep_none] at h
      exact absurd h (by simp)
    | some v =>
      rw [show hexStep (some a) c = some (a * 16 + v) by simp [hexStep, hv]]
        at h
      have hb := ih (a * 16 + v) n h
      have hv16 : v < 16 := hexVal_lt c v hv
      calc n < (a * 16 + v + 1) * 16 ^ tl.length := hb
        _ ≤ ((a + 1) * 16) * 16 ^ tl.length := by
            apply Nat.mul_le_mul_right
            omega
        _ = (a + 1) * 16 ^ (c :: tl).length := by
            rw [List.length_cons, pow_succ]
            ring

lemma parseTraceId_lt (s : String) (t : Nat) (h : parseTraceId s = some t) :
    t < 2 ^ 128 := by
  unfold parseTraceId at h
  split_ifs at h with hl
  · have := foldl_hexStep_bound s.data 0 t h
    rw [hl] at this
    calc t < (0 + 1) * 16 ^ 32 := this
      _ = 2 ^ 128 := by norm_num

lemma parseTraceId_serializeTraceId (x : Nat) (h : x < 2 ^ 128) :
    parseTraceId (serializeTraceId x) = some x := by
  have hx : x < 16 ^ 32 := by
    calc x < 2 ^ 128 := h
      _ = 16 ^ 32 := by norm_num
  unfold parseTraceId serializeTraceId parseHexChars
  rw [show (String.mk (toHexChars x 32)).data = toHexChars x 32 from rfl]
  rw [if_pos (toHexChars_length 32 x)]
  rw [foldl_hexStep_toHexChars 32 x 0 hx]
  simp

/-! ## Helper lemmas: guard and main -/

lemma Guard.new_inv (env : Env) (debug ctrlcOk : Bool) (fresh : Nat)
    (program : String) (args : List String) (g : Guard)
    (h : Guard.new env debug ctrlcOk fresh program args = some g) :
    g.transaction = some () ∧
    g.trace_id = (trace_id_env env).getD fresh ∧
    g.cmd = basename program ++ " " ++ String.intercalate " " args := by
  unfold Guard.new at h
  cases hd : dsn env debug with
  | none => rw [hd] at h; exact absurd h (by simp)
  | some v =>
    rw [hd] at h
    split_ifs at h with hc
    · cases h
      exact ⟨rfl, rfl, rfl⟩

lemma Guard.finish_eq (g : Guard) (st : ExitStatus)
    (h : g.transaction = some ()) :
    g.finish st = some ({ g with transaction := none },
      if st.success then
        [Event.setStatus SpanStatus.ok,
         Event.captureMessage (g.cmd ++ " succeeded (" ++ st.render ++ ")")
           Level.info,
         Event.finishTransaction]
      else
        [Event.setStatus SpanStatus.unknownError,
         Event.captureMessage (g.cmd ++ " failed (" ++ st.render ++ ")")
           Level.warning,
         Event.finishTransaction]) := by
  unfold Guard.finish
  rw [h]

lemma runMain_new_some (env : Env) (debug ctrlcOk : Bool) (fresh : Nat)
    (program : String) (args : List String) (st : ExitStatus) (g : Guard)
    (hg : Guard.new env debug ctrlcOk fresh program args = some g) :
    runMain env debug ctrlcOk fresh (program :: args) true st =
      some { stderrLogged := false
             telemetryEvents :=
               (if st.success then
                 [Event.setStatus SpanStatus.ok,
                  Event.captureMessage
                    (g.cmd ++ " succeeded (" ++ st.render ++ ")") Level.info,
                  Event.finishTransaction]
               else
                 [Event.setStatus SpanStatus.unknownError,
                  Event.captureMessage
                    (g.cmd ++ " failed (" ++ st.render ++ ")") Level.warning,
                  Event.finishTransaction])
             ranChild := true
             childEnv := fun k =>
               if k = TRACE_ID_KEY then some (serializeTraceId g.trace_id)
               else env k
             mainExit := exitOf st } := by
  obtain ⟨htx, -, -⟩ := Guard.new_inv env debug ctrlcOk fresh program args g hg
  simp only [runMain]
  rw [hg]
  simp only [if_pos trivial, Guard.finish_eq g st htx]
  rw [show ({ g with transaction := none } : Guard).drop = [] from rfl]
  simp

lemma runMain_new_none (env : Env) (debug ctrlcOk : Bool) (fresh : Nat)
    (program : String) (args : List String) (st : ExitStatus)
    (hg : Guard.new env debug ctrlcOk fresh program args = none) :
    runMain env debug ctrlcOk fresh (program :: args) true st =
      some { stderrLogged := true
             telemetryEvents := []
             ranChild := true
             childEnv := env
             mainExit := exitOf st } := by
  simp only [runMain]
  rw [hg]
  simp

/-! ## Helper lemmas: basename -/

lemma takeWhile_ne_of_not_mem (l : List Char) (h : '/' ∉ l) :
    l.takeWhile (fun c => c != '/') = l := by
  induction l with
  | nil => rfl
  | cons c tl ih =>
    rw [List.mem_cons, not_or] at h
    rw [List.takeWhile_cons, if_pos (by simp [bne_iff_ne]; exact fun e => h.1 e.symm)]
    rw [ih h.2]

lemma not_mem_takeWhile_ne (l : List Char) :
    '/' ∉ l.takeWhile (fun c => c != '/') := by
  induction l with
  | nil => simp
  | cons c tl ih =>
    rw [List.takeWhile_cons]
    by_cases hc : c = '/'
    · subst hc
      simp
    · rw [if_pos (by simp [bne_iff_ne, hc])]
      intro hm
      rcases List.mem_cons.mp hm with h1 | h2
      · exact hc h1.symm
      · exact ih h2

lemma exists_split_takeWhile (l : List Char) (h : '/' ∈ l) :
    ∃ t, l = l.takeWhile (fun c => c != '/') ++ '/' :: t := by
  induction l with
  | nil => cases h
  | cons c tl ih =>
    by_cases hc : c = '/'
    · subst hc
      exact ⟨tl, by simp [List.takeWhile_cons]⟩
    · have htl : '/' ∈ tl := by
        rcases List.mem_cons.mp h with h1 | h2
        · exact absurd h1.symm hc
        · exact h2
      obtain ⟨t, ht⟩ := ih htl
      refine ⟨t, ?_⟩
      rw [List.takeWhile_cons, if_pos (by simp [bne_iff_ne, hc]),
        List.cons_append]
      exact congrArg (List.cons c) ht

/-! ## Claim theorems -/

/-- **C8**: for every path containing at least one separator, `basename`
returns the substring after the final separator (the path decomposes as a
prefix, a final `'/'`, and the separator-free result); for every path with no
separator, `basename` returns the whole string unchanged. -/
theorem basename_after_final_separator (p : String) :
    ('/' ∉ p.data → basename p = p) ∧
    ('/' ∈ p.data →
      ∃ pre, p.data = pre ++ '/' :: (basename p).data ∧
        '/' ∉ (basename p).data) := by
  constructor
  · intro h
    have hr : '/' ∉ p.data.reverse := by simpa using h
    unfold basename
    rw [takeWhile_ne_of_not_mem _ hr, List.reverse_reverse]
  · intro h
    have hr : '/' ∈ p.data.reverse := by simpa using h
    obtain ⟨t, ht⟩ := exists_split_takeWhile _ hr
    refine ⟨t.reverse, ?_, ?_⟩
    · show p.data =
        t.reverse ++ '/' :: (p.data.reverse.takeWhile (fun c => c != '/')).reverse
      conv_lhs => rw [← List.reverse_reverse p.data, ht]
      simp
    · show '/' ∉ (p.data.reverse.takeWhile (fun c => c != '/')).reverse
      rw [List.mem_reverse]
      exact not_mem_takeWhile_ne _

theorem basename_after_final_separator_witness :
    basename (String.mk ['u', 's', 'r']) = String.mk ['u', 's', 'r'] ∧
    ∃ pre, (String.mk ['a', '/', 'b']).data =
        pre ++ '/' :: (basename (String.mk ['a', '/', 'b'])).data ∧
      '/' ∉ (basename (String.mk ['a', '/', 'b'])).data :=
  ⟨(basename_after_final_separator (String.mk ['u', 's', 'r'])).1 (by decide),
   (basename_after_final_separator (String.mk ['a', '/', 'b'])).2 (by decide)⟩

lemma countFinish_classified (s : SpanStatus) (m : String) (lvl : Level) :
    countFinish
      [Event.setStatus s, Event.captureMessage m lvl, Event.finishTransaction]
      = 1 := by
  cases s <;> cases lvl <;> rfl

lemma countMessages_classified (s : SpanStatus) (m : String) (lvl : Level) :
    countMessages
      [Event.setStatus s, Event.captureMessage m lvl, Event.finishTransaction]
      = 1 := by
  cases s <;> cases lvl <;> rfl

/-- **C1**: a session whose transaction handle is live (as every session
returned by `Guard::new` is) performs exactly one finalizing call on the
transaction over its lifetime: on the explicit-completion path `finish`
finalizes once and the subsequent destructor adds nothing, and on the
destructor-only path (finish never called) the drop handler finalizes exactly
once — never zero, never more than one, on either control-flow path. -/
theorem transaction_finalized_exactly_once (g : Guard) (st : ExitStatus)
    (h : g.transaction = some ()) :
    (∀ g' evs, g.finish st = some (g', evs) →
      countFinish (evs ++ g'.drop) = 1) ∧
    countFinish g.drop = 1 := by
  constructor
  · intro g' evs hf
    rw [Guard.finish_eq g st h] at hf
    obtain ⟨h1, h2⟩ := Prod.mk.inj (Option.some.inj hf)
    subst h1
    subst h2
    rw [show ({ g with transaction := none } : Guard).drop = [] from rfl,
      List.append_nil]
    cases hs : st.success <;>
      simp only [if_pos, if_neg, Bool.false_eq_true, not_false_iff,
        countFinish_classified]
  · unfold Guard.drop
    rw [h]
    exact countFinish_classified _ _ _

theorem transaction_finalized_exactly_once_witness :
    (∀ g' evs,
      Guard.finish { transaction := some (), trace_id := 0, cmd := "c" }
        (ExitStatus.exited 0) = some (g', evs) →
      countFinish (evs ++ g'.drop) = 1) ∧
    countFinish
      ({ transaction := some (), trace_id := 0, cmd := "c" } : Guard).drop
      = 1 :=
  transaction_finalized_exactly_once
    { transaction := some (), trace_id := 0, cmd := "c" }
    (ExitStatus.exited 0) rfl

/-- **C2**: `finish` always classifies the exit status and reports: on a
successful status it sets the transaction status to Ok and captures an
informational message built from the command label and the status rendering;
on a failing status (non-zero exit code or signal) it sets UnknownError and
captures a warning-level message; and for every status it captures exactly
one message — never both, never neither. -/
theorem finish_message_policy (g : Guard) (st : ExitStatus)
    (h : g.transaction = some ()) :
    ∃ g' evs, g.finish st = some (g', evs) ∧
      (st.success = true →
        Event.setStatus SpanStatus.ok ∈ evs ∧
        Event.captureMessage (g.cmd ++ " succeeded (" ++ st.render ++ ")")
          Level.info ∈ evs) ∧
      (st.success = false →
        Event.setStatus SpanStatus.unknownError ∈ evs ∧
        Event.captureMessage (g.cmd ++ " failed (" ++ st.render ++ ")")
          Level.warning ∈ evs) ∧
      countMessages evs = 1 := by
  refine ⟨_, _, Guard.finish_eq g st h, ?_, ?_, ?_⟩
  · intro hs
    simp [hs]
  · intro hs
    simp [hs]
  · cases hs : st.success <;>
      simp only [if_pos, if_neg, Bool.false_eq_true, not_false_iff,
        countMessages_classified]

theorem finish_message_policy_witness :
    ∃ g' evs,
      Guard.finish { transaction := some (), trace_id := 0, cmd := "c" }
        (ExitStatus.exited 1) = some (g', evs) ∧
      ((ExitStatus.exited 1).success = true →
        Event.setStatus SpanStatus.ok ∈ evs ∧
        Event.captureMessage
          ("c" ++ " succeeded (" ++ (ExitStatus.exited 1).render ++ ")")
          Level.info ∈ evs) ∧
      ((ExitStatus.exited 1).success = false →
        Event.setStatus SpanStatus.unknownError ∈ evs ∧
        Event.captureMessage
          ("c" ++ " failed (" ++ (ExitStatus.exited 1).render ++ ")")
          Level.warning ∈ evs) ∧
      countMessages evs = 1 :=
  finish_message_policy { transaction := some (), trace_id := 0, cmd := "c" }
    (ExitStatus.exited 1) rfl

lemma trace_id_env_lt (env : Env) (t : Nat)
    (h : trace_id_env env = some t) : t < 2 ^ 128 := by
  unfold trace_id_env at h
  cases he : env TRACE_ID_KEY with
  | none => rw [he] at h; exact absurd h (by simp)
  | some s =>
    rw [he, Option.some_bind] at h
    exact parseTraceId_lt s t h

lemma runMain_childEnv_trace (env : Env) (debug ctrlcOk : Bool) (fresh : Nat)
    (program : String) (args : List String) (st : ExitStatus) (g : Guard)
    (hg : Guard.new env debug ctrlcOk fresh program args = some g) :
    ∀ r, runMain env debug ctrlcOk fresh (program :: args) true st = some r →
      r.childEnv TRACE_ID_KEY = some (serializeTraceId g.trace_id) := by
  intro r hr
  rw [runMain_new_some env debug ctrlcOk fresh program args st g hg] at hr
  have h2 := Option.some.inj hr
  subst h2
  simp

/-- **C3**: when session creation fails, the error is logged to standard
error, the child is still spawned and runs with no telemetry events at all,
and the wrapper's final exit code still equals the child's numeric exit code —
telemetry failure is never fatal to the wrapped command. -/
theorem creation_failure_nonfatal (env : Env) (debug ctrlcOk : Bool)
    (fresh : Nat) (program : String) (args : List String) (st : ExitStatus)
    (c : Int) (hfail : Guard.new env debug ctrlcOk fresh program args = none)
    (hc : st.code = some c) :
    ∃ r, runMain env debug ctrlcOk fresh (program :: args) true st = some r ∧
      r.stderrLogged = true ∧ r.ranChild = true ∧ r.telemetryEvents = [] ∧
      processExitCode r.mainExit = c := by
  refine ⟨_, runMain_new_none env debug ctrlcOk fresh program args st hfail,
    rfl, rfl, rfl, ?_⟩
  show processExitCode (exitOf st) = c
  unfold exitOf
  rw [hc]
  rfl

theorem creation_failure_nonfatal_witness :
    ∃ r, runMain (fun _ => none) false true 0 ["p"] true
        (ExitStatus.exited 2) = some r ∧
      r.stderrLogged = true ∧ r.ranChild = true ∧ r.telemetryEvents = [] ∧
      processExitCode r.mainExit = 2 :=
  creation_failure_nonfatal (fun _ => none) false true 0 "p" []
    (ExitStatus.exited 2) 2 rfl rfl

/-- **C4**: when the inbound trace-id variable parses as a valid 128-bit
trace identifier, every session the wrapper creates resolves its trace id to
exactly the parsed value, and the trace-identifier parser and serializer
round-trip on that value: parsing the serialization returns it exactly. -/
theorem inbound_trace_id_exact (env : Env) (debug ctrlcOk : Bool)
    (fresh : Nat) (program : String) (args : List String) (t : Nat)
    (ht : trace_id_env env = some t) :
    (∀ g, Guard.new env debug ctrlcOk fresh program args = some g →
      g.trace_id = t) ∧
    parseTraceId (serializeTraceId t) = some t := by
  constructor
  · intro g hg
    obtain ⟨-, hid, -⟩ :=
      Guard.new_inv env debug ctrlcOk fresh program args g hg
    rw [hid, ht]
    rfl
  · exact parseTraceId_serializeTraceId t (trace_id_env_lt env t ht)

theorem inbound_trace_id_exact_witness :
    (∀ g, Guard.new
        (fun k => if k = "ODX_TRACE_ID"
          then some "00000000000000000000000000000007"
          else if k = "ODX_DSN" then some "d" else none)
        false true 5 "p" [] = some g →
      g.trace_id = 7) ∧
    parseTraceId (serializeTraceId 7) = some 7 :=
  inbound_trace_id_exact
    (fun k => if k = "ODX_TRACE_ID"
      then some "00000000000000000000000000000007"
      else if k = "ODX_DSN" then some "d" else none)
    false true 5 "p" [] 7 (by decide)

/-- **C5**: when the inbound trace-id variable is absent or malformed, every
session the wrapper creates resolves its trace id to the freshly generated
identifier; the identifier does not change across the session's `finish`
transition; and the wrapper spawns the child with the same variable set to
exactly the serialization of that resolved identifier. -/
theorem fresh_trace_id_generated_and_propagated (env : Env)
    (debug ctrlcOk : Bool) (fresh : Nat) (program : String)
    (args : List String) (st : ExitStatus)
    (ht : trace_id_env env = none) :
    ∀ g, Guard.new env debug ctrlcOk fresh program args = some g →
      g.trace_id = fresh ∧
      (∀ g' evs, g.finish st = some (g', evs) → g'.trace_id = g.trace_id) ∧
      (∀ r, runMain env debug ctrlcOk fresh (program :: args) true st = some r →
        r.childEnv TRACE_ID_KEY = some (serializeTraceId g.trace_id)) := by
  intro g hg
  obtain ⟨htx, hid, -⟩ :=
    Guard.new_inv env debug ctrlcOk fresh program args g hg
  refine ⟨?_, ?_,
    runMain_childEnv_trace env debug ctrlcOk fresh program args st g hg⟩
  · rw [hid, ht]
    rfl
  · intro g' evs hf
    rw [Guard.finish_eq g st htx] at hf
    obtain ⟨h1, h2⟩ := Prod.mk.inj (Option.some.inj hf)
    subst h1
    rfl

theorem fresh_trace_id_generated_and_propagated_witness :
    ({ transaction := some (), trace_id := 9, cmd := "p " } : Guard).trace_id
        = 9 ∧
    (∀ g' evs, Guard.finish
        { transaction := some (), trace_id := 9, cmd := "p " }
        (ExitStatus.exited 0) = some (g', evs) →
      g'.trace_id =
        ({ transaction := some (), trace_id := 9, cmd := "p " } :
          Guard).trace_id) ∧
    (∀ r, runMain (fun k => if k = "ODX_DSN" then some "d" else none)
        false true 9 ["p"] true (ExitStatus.exited 0) = some r →
      r.childEnv TRACE_ID_KEY = some (serializeTraceId
        ({ transaction := some (), trace_id := 9, cmd := "p " } :
          Guard).trace_id)) :=
  fresh_trace_id_generated_and_propagated
    (fun k => if k = "ODX_DSN" then some "d" else none)
    false true 9 "p" [] (ExitStatus.exited 0) (by decide)
    { transaction := some (), trace_id := 9, cmd := "p " } (by decide)

/-- **C6**: whenever the child terminates with a numeric exit code, the
wrapper's own process exit code equals that code, on both the
telemetry-enabled path and the telemetry-disabled (creation-failure) path. -/
theorem wrapper_exit_code_matches_child (env : Env) (debug ctrlcOk : Bool)
    (fresh : Nat) (program : String) (args : List String) (c : Int)
    (r : MainResult)
    (hr : runMain env debug ctrlcOk fresh (program :: args) true
      (ExitStatus.exited c) = some r) :
    processExitCode r.mainExit = c := by
  cases hg : Guard.new env debug ctrlcOk fresh program args with
  | some g =>
    rw [runMain_new_some env debug ctrlcOk fresh program args _ g hg] at hr
    have h2 := Option.some.inj hr
    subst h2
    rfl
  | none =>
    rw [runMain_new_none env debug ctrlcOk fresh program args _ hg] at hr
    have h2 := Option.some.inj hr
    subst h2
    rfl

theorem wrapper_exit_code_matches_child_witness :
    processExitCode
      ({ stderrLogged := true, telemetryEvents := [], ranChild := true,
         childEnv := fun _ => none,
         mainExit := MainExit.explicitExit 3 } : MainResult).mainExit = 3 :=
  wrapper_exit_code_matches_child (fun _ => none) false true 0 "p" [] 3 _ rfl

/-- **C7** (counterexample to the claim as stated): the trace-id variable is
not set on every execution path — on the session-creation-failure path (sink
address absent) the wrapper spawns the child with the unmodified environment,
so in an empty environment the child runs with `ODX_TRACE_ID` unset. -/
theorem trace_id_not_always_set :
    ∃ r, runMain (fun _ => none) false true 0 ["prog"] true
        (ExitStatus.exited 0) = some r ∧
      r.ranChild = true ∧ r.childEnv TRACE_ID_KEY = none :=
  ⟨_, rfl, rfl, rfl⟩

/-- **C7** (amended): on every invocation where session creation succeeds,
the wrapper spawns the child with the trace-id variable set to the session's
resolved trace identifier. -/
theorem trace_id_set_when_session_created (env : Env) (debug ctrlcOk : Bool)
    (fresh : Nat) (program : String) (args : List String) (st : ExitStatus)
    (g : Guard)
    (hg : Guard.new env debug ctrlcOk fresh program args = some g) :
    ∀ r, runMain env debug ctrlcOk fresh (program :: args) true st = some r →
      r.childEnv TRACE_ID_KEY = some (serializeTraceId g.trace_id) :=
  runMain_childEnv_trace env debug ctrlcOk fresh program args st g hg

theorem trace_id_set_when_session_created_witness :
    ∃ r, runMain (fun k => if k = "ODX_DSN" then some "d" else none)
        false true 0 ["p"] true (ExitStatus.exited 0) = some r ∧
      r.childEnv TRACE_ID_KEY =
        some (serializeTraceId
          (({ transaction := some (), trace_id := 0, cmd := "p " } :
            Guard).trace_id)) := by
  refine ⟨_, rfl, ?_⟩
  exact trace_id_set_when_session_created
    (fun k => if k = "ODX_DSN" then some "d" else none) false true 0 "p" []
    (ExitStatus.exited 0) { transaction := some (), trace_id := 0, cmd := "p " }
    rfl _ rfl

/-- **C9**: when the child terminates via a signal (no numeric exit code),
`main` falls through the exit-code branch and returns normally, so the
wrapper's own process exit code is 0 — not a 128+signal convention and not a
failure code. -/
theorem signal_termination_exits_zero (env : Env) (debug ctrlcOk : Bool)
    (fresh : Nat) (program : String) (args : List String) (sig : Nat)
    (r : MainResult)
    (hr : runMain env debug ctrlcOk fresh (program :: args) true
      (ExitStatus.signaled sig) = some r) :
    r.mainExit = MainExit.normalReturn ∧ processExitCode r.mainExit = 0 := by
  cases hg : Guard.new env debug ctrlcOk fresh program args with
  | some g =>
    rw [runMain_new_some env debug ctrlcOk fresh program args _ g hg] at hr
    have h2 := Option.some.inj hr
    subst h2
    exact ⟨rfl, rfl⟩
  | none =>
    rw [runMain_new_none env debug ctrlcOk fresh program args _ hg] at hr
    have h2 := Option.some.inj hr
    subst h2
    exact ⟨rfl, rfl⟩

theorem signal_termination_exits_zero_witness :
    ({ stderrLogged := true, telemetryEvents := [], ranChild := true,
       childEnv := fun _ => none,
       mainExit := MainExit.normalReturn } : MainResult).mainExit =
        MainExit.normalReturn ∧
    processExitCode
      ({ stderrLogged := true, telemetryEvents := [], ranChild := true,
         childEnv := fun _ => none,
         mainExit := MainExit.normalReturn } : MainResult).mainExit = 0 :=
  signal_termination_exits_zero (fun _ => none) false true 0 "p" [] 9 _ rfl

/-- **C10**: invoked with no positional arguments at all, `main` panics
(modelled as `none`) on the unwrap of the first argument rather than printing
a usage error; and when spawning the child fails, `main` panics on the unwrap
of the spawn result on both the telemetry-enabled and the fallback paths. -/
theorem missing_program_or_spawn_failure_panics (env : Env)
    (debug ctrlcOk : Bool) (fresh : Nat) (st : ExitStatus) :
    runMain env debug ctrlcOk fresh [] true st = none ∧
    (∀ program args,
      runMain env debug ctrlcOk fresh (program :: args) false st = none) := by
  constructor
  · rfl
  · intro program args
    simp only [runMain]
    cases Guard.new env debug ctrlcOk fresh program args <;> simp
